import Mathlib

/-!
Shallow embedding of the client runtime of the sales-assistant Mini App
(`webapp/src/main.ts` and `webapp/src/tg.ts`): the app-state record, view
navigation, onboarding-hint progression, the assistant-ask lifecycle, the
structured-error extraction of the assistant endpoint, and the
manager-handoff payload / context-summary composer.

JavaScript strings are modelled as Lean strings (sequences of code points,
which agrees with UTF-16 code units on the Basic Multilingual Plane, where
all texts of this program live).  JS truthiness on strings / numbers is
made explicit at each use site.  Stateful functions become explicit
state-passing functions on the `AppState` record; host-SDK effects are
returned as an explicit action list.
-/

/-- Whitespace set of the JS `\s` regex class and `String.prototype.trim`. -/
def isJsWs (c : Char) : Bool :=
  let n := c.toNat
  n == 32 || n == 9 || n == 10 || n == 13 || n == 11 || n == 12 || n == 160 ||
  n == 5760 || (Nat.ble 8192 n && Nat.ble n 8202) || n == 8232 || n == 8233 ||
  n == 8239 || n == 8287 || n == 12288 || n == 65279

/-- List form of `String.prototype.trim`. -/
def jsTrimList (l : List Char) : List Char :=
  ((l.dropWhile isJsWs).reverse.dropWhile isJsWs).reverse

/-- JS `s.trim()`. -/
def jsTrim (s : String) : String := ⟨jsTrimList s.data⟩

/-- JS `s.trimEnd()`. -/
def jsTrimEnd (s : String) : String := ⟨(s.data.reverse.dropWhile isJsWs).reverse⟩

/-- Whether the whitespace run starting the list still reaches a newline. -/
def wsRunHasNl : List Char → Bool
  | [] => false
  | c :: rest => if c = '\n' then true else if isJsWs c then wsRunHasNl rest else false

/-- List form of JS `s.replace(/\s+\n/g, "\n")`: inside every maximal
whitespace run, the characters strictly before the run's last newline are
dropped (the greedy global match collapses them into that newline). -/
def collapseWsNlList : List Char → List Char
  | [] => []
  | c :: rest =>
    if isJsWs c ∧ wsRunHasNl rest then collapseWsNlList rest
    else c :: collapseWsNlList rest

/-- List form of JS `s.replace(/\s+/g, " ")`: every maximal whitespace run
becomes one space. -/
def collapseWsList : List Char → List Char
  | [] => []
  | c :: rest =>
    if isJsWs c then
      (match rest with
       | c2 :: _ => if isJsWs c2 then collapseWsList rest else ' ' :: collapseWsList rest
       | [] => [' '])
    else c :: collapseWsList rest

/-- JS `s.replace(/\s+/g, " ")`. -/
def collapseWs (s : String) : String := ⟨collapseWsList s.data⟩

/-- JS `s.startsWith(p)`. -/
def strStartsWith (s p : String) : Bool := s.data.take p.data.length = p.data

/-- JS `s.includes(sub)` (substring containment). -/
def strContainsSub (hay sub : String) : Bool :=
  (List.range (hay.data.length + 1)).any
    (fun i => (hay.data.drop i).take sub.data.length = sub.data)

/-- JS string truthiness: `undefined`, absent, and `""` are falsy. -/
def truthyStr : Option String → Option String
  | some s => if s = "" then Option.none else some s
  | Option.none => Option.none

/-- UTF-8 encoding of one code point, as byte values. -/
def charUtf8Bytes (c : Char) : List Nat :=
  let n := c.toNat
  if n < 128 then [n]
  else if n < 2048 then [192 + n / 64, 128 + n % 64]
  else if n < 65536 then [224 + n / 4096, 128 + (n / 64) % 64, 128 + n % 64]
  else [240 + n / 262144, 128 + (n / 4096) % 64, 128 + (n / 64) % 64, 128 + n % 64]

/-- Number of UTF-8 bytes of a string (the wire size of a JS string). -/
def utf8ByteLength (s : String) : Nat :=
  (s.data.map (fun c => (charUtf8Bytes c).length)).sum

/-- Uppercase hex digit, used by `encodeURIComponent`. -/
def hexDigitUpper (n : Nat) : Char :=
  if n < 10 then Char.ofNat (48 + n) else Char.ofNat (55 + n)

/-- Lowercase hex digit, used by the JSON `\u00XX` escapes. -/
def hexDigitLower (n : Nat) : Char :=
  if n < 10 then Char.ofNat (48 + n) else Char.ofNat (87 + n)

/-- Percent-encoding of one byte. -/
def percentByte (n : Nat) : String :=
  "%" ++ String.mk [hexDigitUpper (n / 16 % 16), hexDigitUpper (n % 16)]

/-- Characters left unescaped by JS `encodeURIComponent`. -/
def isUriUnreserved (c : Char) : Bool :=
  let n := c.toNat
  (Nat.ble 65 n && Nat.ble n 90) || (Nat.ble 97 n && Nat.ble n 122) ||
  (Nat.ble 48 n && Nat.ble n 57) ||
  n == 45 || n == 95 || n == 46 || n == 33 || n == 126 || n == 42 ||
  n == 39 || n == 40 || n == 41

/-- JS `encodeURIComponent`: unreserved characters pass through, everything
else is percent-encoded per UTF-8 byte. -/
def encodeURIComponent (s : String) : String :=
  String.join (s.data.map (fun c =>
    if isUriUnreserved c then String.mk [c]
    else String.join ((charUtf8Bytes c).map percentByte)))

/-! ## Data model (`main.ts` type declarations) -/

/-- The four views of the app (`type AppView`). -/
inductive AppView
  | home
  | picker
  | results
  | chat
deriving DecidableEq

/-- Match quality reported by the backend. -/
inductive MatchQuality
  | strong
  | limited
  | none
deriving DecidableEq

/-- Role of a chat transcript entry. -/
inductive ChatRole
  | user
  | assistant
deriving DecidableEq

/-- One transcript entry (`type ChatMessage`). -/
structure ChatMessage where
  role : ChatRole
  text : String
  sources : Option (List String) := Option.none
  meta : Option String := Option.none
deriving DecidableEq

/-- One catalog item (`type CatalogItem`). -/
structure CatalogItem where
  id : String
  title : String
  url : String
  usp : List String := []
  price_text : String := ""
  next_start_text : String := ""
  why_match : String := ""
deriving DecidableEq

/-- Picker criteria (`type SearchCriteria`); `grade` is a JS number or null. -/
structure SearchCriteria where
  brand : String
  grade : Option Int := Option.none
  goal : Option String := Option.none
  subject : Option String := Option.none
  format : Option String := Option.none
deriving DecidableEq

/-- Host-provided user identity (`type TelegramWebAppUser`). -/
structure TelegramWebAppUser where
  id : Int
  first_name : Option String := Option.none
  last_name : Option String := Option.none
  username : Option String := Option.none
deriving DecidableEq

/-- Stored manager offer (`type ManagerOffer`). -/
structure ManagerOffer where
  recommended : Bool
  message : String
  callToAction : String
deriving DecidableEq

/-- The single mutable application snapshot (`type AppState` and the
`state` literal in `main.ts`). -/
structure AppState where
  view : AppView
  criteria : SearchCriteria
  results : List CatalogItem
  matchQuality : MatchQuality
  managerRecommended : Bool
  managerMessage : String
  managerCallToAction : String
  loading : Bool
  error : Option String
  statusLine : String
  initData : String
  user : Option TelegramWebAppUser
  coachmarkStep : Int
  chatInput : String
  chatMessages : List ChatMessage
  chatLoading : Bool
  chatProgressText : String
  chatElapsedSec : Nat
  lastManagerOffer : Option ManagerOffer
  brandName : String
  advisorName : String
  managerLabel : String
  managerChatUrl : String
  userMiniappUrl : String
deriving DecidableEq

/-- Progress captions shown while an assistant ask is in flight. -/
def CHAT_PROGRESS_STEPS : List String :=
  ["Смотрю ваш контекст…", "Собираю ответ…", "Проверяю рекомендации…"]

/-- Storage key of the single persisted client-side flag. -/
def COACHMARK_STORAGE_KEY : String := "kmipt_sales_miniapp_coachmarks_v2"

/-- Hard bound of the direct manager-context summary. -/
def MAX_MANAGER_CONTEXT_LENGTH : Nat := 900

/-- Target username of the human agent. -/
def DEFAULT_MANAGER_TELEGRAM_USERNAME : String := "unpk_mipt"

/-! ## Persisted onboarding flag and coachmark progression -/

/-- Outcome of `localStorage.getItem(COACHMARK_STORAGE_KEY)`: a stored
value (or absence), or a thrown storage error. -/
inductive StorageRead
  | ok (value : Option String)
  | failed
deriving DecidableEq

/-- `shouldShowCoachmarks()`: the stored value is compared against "1";
a thrown storage read yields `false` (the catch branch). -/
def shouldShowCoachmarks : StorageRead → Bool
  | StorageRead.ok v => decide (v ≠ some "1")
  | StorageRead.failed => false

/-- The boot value of `state.coachmarkStep`:
`shouldShowCoachmarks() ? 0 : -1`. -/
def initialCoachmarkStep (storage : StorageRead) : Int :=
  if shouldShowCoachmarks storage then 0 else -1

/-- JS number truthiness for `state.criteria.grade`. -/
def numTruthy : Option Int → Bool
  | some n => decide (n ≠ 0)
  | Option.none => false

/-- JS string truthiness for criteria fields. -/
def strTruthy : Option String → Bool
  | some s => decide (s ≠ "")
  | Option.none => false

/-- `updateCoachmarkProgress()` as a function of the criteria and the
current step: below zero is untouched; step 0 advances to 1 once a grade
is set, and (in the same call) step 1 advances to 2 once a goal is set. -/
def updateCoachmarkProgress (c : SearchCriteria) (step : Int) : Int :=
  if step < 0 then step
  else
    let step1 := if step = 0 ∧ numTruthy c.grade then 1 else step
    if step1 = 1 ∧ strTruthy c.goal then 2 else step1

/-- `markCoachmarksComplete()` effect on `state.coachmarkStep` (the
storage write is best-effort and ignored here). -/
def markCoachmarksComplete (_step : Int) : Int := -1

/-- The coachmark "next" button handler: at step ≥ 2 it dismisses,
otherwise it advances one step. -/
def coachmarkNextClick (step : Int) : Int :=
  if step ≥ 2 then -1 else step + 1

/-- The `loadCatalogResults` touch of the step:
`if (state.coachmarkStep >= 2) state.coachmarkStep = 2`. -/
def catalogCoachmarkClamp (step : Int) : Int :=
  if step ≥ 2 then 2 else step

/-! ## Navigation -/

/-- `navigateTo(view)`: clears the error and sets the view. -/
def navigateTo (view : AppView) (s : AppState) : AppState :=
  { s with error := Option.none, view := view }

/-- `goBack()`: fixed predecessor map over the current view, with the
chat predecessor depending on result presence; clears the error. -/
def goBack (s : AppState) : AppState :=
  let nextView :=
    match s.view with
    | AppView.chat => if s.results.length > 0 then AppView.results else AppView.picker
    | AppView.results => AppView.picker
    | AppView.picker => AppView.home
    | AppView.home => AppView.home
  { s with error := Option.none, view := nextView }

/-- The `state` literal built at boot in `main.ts`, parameterized by the
host-provided init data, user, and the persisted-flag read. -/
def initialState (initData : String) (user : Option TelegramWebAppUser)
    (storage : StorageRead) : AppState :=
  { view := AppView.home
    criteria := { brand := "kmipt" }
    results := []
    matchQuality := MatchQuality.none
    managerRecommended := false
    managerMessage := ""
    managerCallToAction := ""
    loading := false
    error := Option.none
    statusLine := "Проверяю подключение к Telegram…"
    initData := initData
    user := user
    coachmarkStep := initialCoachmarkStep storage
    chatInput := ""
    chatMessages := []
    chatLoading := false
    chatProgressText := CHAT_PROGRESS_STEPS.headD ""
    chatElapsedSec := 0
    lastManagerOffer := Option.none
    brandName := "УНПК МФТИ"
    advisorName := "Гид"
    managerLabel := "Менеджер"
    managerChatUrl := ""
    userMiniappUrl := "/app" }

/-- A convenient concrete boot state (browser preview: no host identity,
empty storage). -/
def baseState : AppState := initialState "" Option.none (StorageRead.ok Option.none)

/-! ## Assistant error extraction (`readAssistantApiError`) -/

/-- The `detail` field of a non-2xx assistant response body: absent (or of
an unhandled JSON type), a bare string, or a nested object
(`type AssistantErrorDetail`). -/
inductive ErrDetail
  | absent
  | str (value : String)
  | obj (user_message : Option String) (message : Option String) (request_id : Option String)
deriving DecidableEq

/-- A parsed non-2xx assistant response body (a JSON record). -/
structure AssistantErrorBody where
  user_message : Option String := Option.none
  request_id : Option String := Option.none
  detail : ErrDetail := ErrDetail.absent
deriving DecidableEq

/-- The error object thrown on assistant-ask failures
(`class AssistantApiError`). -/
structure AssistantApiError where
  userMessage : String
  requestId : Option String
deriving DecidableEq

/-- Generic user-facing fallback for assistant failures. -/
def ASSISTANT_FALLBACK_MESSAGE : String :=
  "Не удалось получить ответ. Попробуйте еще раз через несколько секунд."

/-- Trim an optional string and drop it when blank (the
`(x || "").trim() || null` idiom). -/
def optTrimToSome (v : Option String) : Option String :=
  let t := jsTrim (v.getD "")
  if t = "" then Option.none else some t

/-- `readAssistantApiError(response)`: `status` is the HTTP status,
`headerRequestId` the `X-Request-ID` header, and `body` the parsed JSON
body (`none` when parsing fails or the body is not a record).  Mirrors the
sequential probing of the source: each later probe overwrites the message
chosen so far. -/
def readAssistantApiError (status : Nat) (headerRequestId : Option String)
    (body : Option AssistantErrorBody) : AssistantApiError :=
  let requestId0 := optTrimToSome headerRequestId
  match body with
  | Option.none => { userMessage := ASSISTANT_FALLBACK_MESSAGE, requestId := requestId0 }
  | some payload =>
    let userMessage1 :=
      match payload.user_message with
      | some u => if jsTrim u = "" then ASSISTANT_FALLBACK_MESSAGE else jsTrim u
      | Option.none => ASSISTANT_FALLBACK_MESSAGE
    let requestId1 :=
      match requestId0 with
      | some r => some r
      | Option.none =>
        match payload.request_id with
        | some r => if jsTrim r = "" then Option.none else some (jsTrim r)
        | Option.none => Option.none
    match payload.detail with
    | ErrDetail.absent => { userMessage := userMessage1, requestId := requestId1 }
    | ErrDetail.str d =>
      { userMessage := if jsTrim d ≠ "" ∧ status < 500 then jsTrim d else userMessage1
        requestId := requestId1 }
    | ErrDetail.obj dUserMessage dMessage dRequestId =>
      let fromMessage :=
        match dMessage with
        | some m => if jsTrim m ≠ "" ∧ status < 500 then jsTrim m else userMessage1
        | Option.none => userMessage1
      let userMessage2 :=
        match dUserMessage with
        | some u => if jsTrim u ≠ "" then jsTrim u else fromMessage
        | Option.none => fromMessage
      let requestId2 :=
        match requestId1 with
        | some r => some r
        | Option.none =>
          match dRequestId with
          | some r => if jsTrim r = "" then Option.none else some (jsTrim r)
          | Option.none => Option.none
      { userMessage := userMessage2, requestId := requestId2 }

/-- The user-facing message as the SPEC sentence describes the fallback
chain (for comparison with `readAssistantApiError`): prefer a top-level
`user_message`, ELSE a string `detail` when the status is below 500, else
a nested detail object's `user_message` / `message`, else the generic
fallback. -/
def specAssistantErrorMessage (status : Nat) (body : Option AssistantErrorBody) : String :=
  match body with
  | Option.none => ASSISTANT_FALLBACK_MESSAGE
  | some payload =>
    let topLevel := jsTrim (payload.user_message.getD "")
    if topLevel ≠ "" then topLevel
    else
      match payload.detail with
      | ErrDetail.str d =>
        if jsTrim d ≠ "" ∧ status < 500 then jsTrim d else ASSISTANT_FALLBACK_MESSAGE
      | ErrDetail.obj dUserMessage dMessage _ =>
        (match dUserMessage with
         | some u =>
           if jsTrim u ≠ "" then jsTrim u
           else
             (match dMessage with
              | some m => if jsTrim m ≠ "" then jsTrim m else ASSISTANT_FALLBACK_MESSAGE
              | Option.none => ASSISTANT_FALLBACK_MESSAGE)
         | Option.none =>
           (match dMessage with
            | some m => if jsTrim m ≠ "" then jsTrim m else ASSISTANT_FALLBACK_MESSAGE
            | Option.none => ASSISTANT_FALLBACK_MESSAGE))
      | ErrDetail.absent => ASSISTANT_FALLBACK_MESSAGE

/-! ## Handoff payload serialization (`buildMiniAppPayload`) -/

/-- The two payload flows. -/
inductive MiniAppFlow
  | catalog
  | consultation_request
deriving DecidableEq

/-- Wire value of a flow. -/
def flowString : MiniAppFlow → String
  | MiniAppFlow.catalog => "catalog"
  | MiniAppFlow.consultation_request => "consultation_request"

/-- JSON string escaping as `JSON.stringify` performs it. -/
def jsonEscapeChar (c : Char) : String :=
  if c = '"' then "\\\""
  else if c = '\\' then "\\\\"
  else if c.toNat = 8 then "\\b"
  else if c = '\t' then "\\t"
  else if c = '\n' then "\\n"
  else if c.toNat = 12 then "\\f"
  else if c.toNat = 13 then "\\r"
  else if c.toNat < 32 then
    "\\u00" ++ String.mk [hexDigitLower (c.toNat / 16), hexDigitLower (c.toNat % 16)]
  else String.mk [c]

/-- Escape every character of a list, flattened. -/
def jsonEscapeList : List Char → List Char
  | [] => []
  | c :: rest => (jsonEscapeChar c).data ++ jsonEscapeList rest

/-- A JSON string literal. -/
def jsonQuote (s : String) : String :=
  ⟨'"' :: (jsonEscapeList s.data ++ ['"'])⟩

/-- A JSON string-or-null value. -/
def jsonOptString : Option String → String
  | some s => jsonQuote s
  | Option.none => "null"

/-- A JSON number-or-null value. -/
def jsonOptInt : Option Int → String
  | some n => toString n
  | Option.none => "null"

/-- `JSON.stringify(state.criteria)` (insertion order of the state
literal: brand, grade, goal, subject, format). -/
def serializeCriteria (c : SearchCriteria) : String :=
  "\x7b\"brand\":" ++ jsonQuote c.brand ++
  ",\"grade\":" ++ jsonOptInt c.grade ++
  ",\"goal\":" ++ jsonOptString c.goal ++
  ",\"subject\":" ++ jsonOptString c.subject ++
  ",\"format\":" ++ jsonOptString c.format ++ "\x7d"

/-- One reduced top item `{id, title, url}`. -/
def serializeTopItem (i : CatalogItem) : String :=
  "\x7b\"id\":" ++ jsonQuote i.id ++
  ",\"title\":" ++ jsonQuote i.title ++
  ",\"url\":" ++ jsonQuote i.url ++ "\x7d"

/-- The `top` array: the first three results reduced to `{id,title,url}`. -/
def serializeTop (items : List CatalogItem) : String :=
  "[" ++ String.intercalate "," (items.map serializeTopItem) ++ "]"

/-- `JSON.stringify` of the `MiniAppPayload` object literal of
`buildMiniAppPayload` (key order flow, criteria, top, note; an
`undefined` note is omitted). -/
def serializeMiniAppPayload (flow : MiniAppFlow) (criteria : SearchCriteria)
    (results : List CatalogItem) (note : Option String) : String :=
  "\x7b\"flow\":" ++ jsonQuote (flowString flow) ++
  ",\"criteria\":" ++ serializeCriteria criteria ++
  ",\"top\":" ++ serializeTop (results.take 3) ++
  (match note with
   | some n => ",\"note\":" ++ jsonQuote n
   | Option.none => "") ++ "\x7d"

/-- `buildMiniAppPayload(flow, note)` on a state with the given criteria
and results: the serialized payload, or `none` when
`serialized.length >= 4096` (JS string length). -/
def buildMiniAppPayload (flow : MiniAppFlow) (criteria : SearchCriteria)
    (results : List CatalogItem) (note : Option String) : Option String :=
  let serialized := serializeMiniAppPayload flow criteria results note
  if serialized.length ≥ 4096 then Option.none else some serialized

/-! ## Manager context summary (`HandoffComposer` direct flow) -/

/-- `compactValue(value, fallback = "не указано")`. -/
def compactValue (value : Option String) (fallback : String := "не указано") : String :=
  let normalized := jsTrim (value.getD "")
  if normalized = "" then fallback else normalized

/-- Goal value → label table of `compactCriteriaSummary`. -/
def goalMap : String → Option String
  | "ege" => some "ЕГЭ"
  | "oge" => some "ОГЭ"
  | "olympiad" => some "олимпиады"
  | "camp" => some "лагерь"
  | "base" => some "успеваемость"
  | _ => Option.none

/-- Subject value → label table. -/
def subjectMap : String → Option String
  | "math" => some "математика"
  | "physics" => some "физика"
  | "informatics" => some "информатика"
  | _ => Option.none

/-- Format value → label table. -/
def formatMap : String → Option String
  | "online" => some "онлайн"
  | "offline" => some "очно"
  | "hybrid" => some "гибрид"
  | _ => Option.none

/-- `compactCriteriaSummary()`. -/
def compactCriteriaSummary (c : SearchCriteria) : String :=
  let grade :=
    match c.grade with
    | some g => if g ≠ 0 then toString g ++ " кл." else "класс не указан"
    | Option.none => "класс не указан"
  let goal :=
    match goalMap (c.goal.getD "") with
    | some label => label
    | Option.none => compactValue c.goal
  let subject :=
    match subjectMap (c.subject.getD "") with
    | some label => label
    | Option.none => compactValue c.subject
  let mode :=
    match formatMap (c.format.getD "") with
    | some label => label
    | Option.none => compactValue c.format
  grade ++ "; цель: " ++ goal ++ "; предмет: " ++ subject ++ "; формат: " ++ mode

/-- `compactProductsSummary()`. -/
def compactProductsSummary (results : List CatalogItem) : String :=
  if results = [] then "подбор пока без финального совпадения"
  else
    let titles := ((results.take 3).map (fun item => jsTrim item.title)).filter (fun t => t ≠ "")
    if titles = [] then "подбор есть, названия уточняются"
    else String.intercalate " | " titles

/-- `compactDialogueSummary()`: up to the last two user turns, whitespace
normalized, numbered from 1. -/
def compactDialogueSummary (messages : List ChatMessage) : String :=
  let userMessages :=
    ((messages.filter (fun m => m.role = ChatRole.user)).reverse.take 2).reverse
  if userMessages = [] then "в Mini App еще не было свободного вопроса"
  else
    String.intercalate " "
      (userMessages.enum.map (fun p =>
        toString (p.1 + 1) ++ ") " ++ jsTrim (collapseWs p.2.text)))

/-- `trimForManager(text)`: normalize, and hard-cut to 899 characters
plus an ellipsis when longer than 900. -/
def trimForManager (text : String) : String :=
  let normalized := jsTrim ⟨collapseWsNlList text.data⟩
  if normalized.length ≤ MAX_MANAGER_CONTEXT_LENGTH then normalized
  else jsTrimEnd ⟨normalized.data.take (MAX_MANAGER_CONTEXT_LENGTH - 1)⟩ ++ "…"

/-- `buildManagerContextSummary()`. -/
def buildManagerContextSummary (s : AppState) : String :=
  let personParts : List String :=
    match s.user with
    | some u =>
      (match u.first_name with
       | some f => if f ≠ "" then [f] else []
       | Option.none => []) ++
      (match u.username with
       | some un => if un ≠ "" then ["@" ++ un] else []
       | Option.none => []) ++
      ["id:" ++ toString u.id]
    | Option.none => []
  let who := if personParts = [] then "пользователь Mini App" else String.intercalate " " personParts
  let lines : List String :=
    ["Здравствуйте! Это запрос из клиентского Mini App УНПК МФТИ.",
     "Клиент: " ++ who ++ ".",
     "Контекст запроса: " ++ compactCriteriaSummary s.criteria ++ ".",
     "Подобранные программы: " ++ compactProductsSummary s.results ++ ".",
     "Последние вопросы клиента: " ++ compactDialogueSummary s.chatMessages ++ ".",
     "Просьба: связаться и дать персональную траекторию обучения."]
  trimForManager (String.intercalate "\n" lines)

/-! ## Host bridge (`tg.ts`) -/

/-- Capabilities of the optional host SDK object.  Each optional method is
absent (`none`), present and succeeding (`some true`), or present and
throwing (`some false`); `windowOpen` models the browser `window.open`
fallback, which can also throw. -/
structure HostCaps where
  openTelegramLink : Option Bool := Option.none
  openLink : Option Bool := Option.none
  windowOpen : Bool := true
  sendData : Option Bool := Option.none
  close : Option Bool := Option.none
deriving DecidableEq

/-- Successful host-level effects performed by an operation. -/
inductive HostAction
  | openedTelegramLink (url : String)
  | openedLink (url : String)
  | openedWindow (url : String)
  | sentData (payload : String)
  | closedApp
deriving DecidableEq

/-- The `window.open` fallback tier of `openExternalLink`. -/
def windowOpenFallback (host : HostCaps) (target : String) : Bool × List HostAction :=
  if host.windowOpen then (true, [HostAction.openedWindow target]) else (false, [])

/-- `openExternalLink(webApp, url)`: classify the URL, try the most
specific host opener, and fall back to `window.open`; thrown openers are
caught and fall through.  Returns success plus the effects performed. -/
def openExternalLink (host : HostCaps) (url : String) : Bool × List HostAction :=
  let target := jsTrim url
  if target = "" then (false, [])
  else if strStartsWith target "https://t.me/" || strStartsWith target "tg://" then
    match host.openTelegramLink with
    | some true => (true, [HostAction.openedTelegramLink target])
    | some false => windowOpenFallback host target
    | Option.none => windowOpenFallback host target
  else
    match host.openLink with
    | some true => (true, [HostAction.openedLink target])
    | some false => windowOpenFallback host target
    | Option.none => windowOpenFallback host target

/-- `sendPayloadToChat(payload, successText)`: fail fast without the
`sendData` capability; a throw from `sendData` (or from the optional
`close` call inside the same try) surfaces a send failure; otherwise the
success confirmation text is written into `state.error`. -/
def sendPayloadToChat (host : HostCaps) (payload successText : String)
    (s : AppState) : AppState × List HostAction :=
  match host.sendData with
  | Option.none =>
    ({ s with error := some "Отправка в чат доступна только внутри Telegram Mini App." }, [])
  | some false =>
    ({ s with error := some "Не удалось отправить данные в чат. Попробуйте еще раз." }, [])
  | some true =>
    match host.close with
    | some false =>
      ({ s with error := some "Не удалось отправить данные в чат. Попробуйте еще раз." },
       [HostAction.sentData payload])
    | some true =>
      ({ s with error := some successText },
       [HostAction.sentData payload, HostAction.closedApp])
    | Option.none =>
      ({ s with error := some successText }, [HostAction.sentData payload])

/-- Note attached to the consultation-request payload. -/
def CONSULTATION_NOTE : String :=
  "Пользователь просит менеджера сделать персональный подбор и связаться."

/-- `sendConsultationRequestToChat()`: build the consultation payload and
submit it, or surface the oversized-payload error. -/
def sendConsultationRequestToChat (host : HostCaps) (s : AppState) : AppState × List HostAction :=
  match buildMiniAppPayload MiniAppFlow.consultation_request s.criteria s.results
      (some CONSULTATION_NOTE) with
  | Option.none =>
    ({ s with error := some "Не удалось подготовить запрос менеджеру. Сформулируйте коротко запрос в чате." }, [])
  | some payload =>
    sendPayloadToChat host payload "Запрос менеджеру отправлен. В чате попросим контакт и продолжим." s

/-- Strip of `/^https?:\/\/t\.me\//i` and then `/^@/` used by
`resolveManagerUsername`. -/
def stripTmeUrlToUsername (u : String) : String :=
  let lower : String := ⟨u.data.map Char.toLower⟩
  let u1 : String :=
    if strStartsWith lower "https://t.me/" then ⟨u.data.drop 13⟩
    else if strStartsWith lower "http://t.me/" then ⟨u.data.drop 12⟩
    else u
  if strStartsWith u1 "@" then ⟨u1.data.drop 1⟩ else u1

/-- `resolveManagerUsername()`. -/
def resolveManagerUsername (s : AppState) : String :=
  let direct := jsTrim DEFAULT_MANAGER_TELEGRAM_USERNAME
  if direct ≠ "" then direct
  else
    let fromMeta := stripTmeUrlToUsername (jsTrim s.managerChatUrl)
    if fromMeta = "" then "unpk_mipt" else fromMeta

/-- First preferred escalation link of `openManagerChat` (in-host deep
link). -/
def managerLink1 (s : AppState) : String :=
  "tg://resolve?domain=" ++ resolveManagerUsername s ++ "&text=" ++
    encodeURIComponent (buildManagerContextSummary s)

/-- Second preferred escalation link (t.me URL). -/
def managerLink2 (s : AppState) : String :=
  "https://t.me/" ++ resolveManagerUsername s ++ "?text=" ++
    encodeURIComponent (buildManagerContextSummary s)

/-- `openManagerChat()`: try the two direct links in order; when both
fail, fall back to the structured consultation submission and then write
the direct-open failure notice into `state.error`. -/
def openManagerChat (host : HostCaps) (s : AppState) : AppState × List HostAction :=
  let r1 := openExternalLink host (managerLink1 s)
  if r1.1 then (s, r1.2)
  else
    let r2 := openExternalLink host (managerLink2 s)
    if r2.1 then (s, r1.2 ++ r2.2)
    else
      let r3 := sendConsultationRequestToChat host s
      ({ r3.1 with
          error := some "Не удалось открыть чат менеджера напрямую. Контекст отправлен в бот." },
       r1.2 ++ r2.2 ++ r3.2)

/-! ## Assistant ask lifecycle (`ConversationEngine`) -/

/-- One recommended product of a successful assistant response. -/
structure AssistantRecommendedItem where
  id : String
  title : String
  url : String
  why_match : String := ""
deriving DecidableEq

/-- `toCatalogItem(item)`. -/
def toCatalogItem (item : AssistantRecommendedItem) : CatalogItem :=
  { id := item.id
    title := item.title
    url := item.url
    usp := []
    price_text := "Цена уточняется у менеджера"
    next_start_text := "Уточним под ваш график"
    why_match := if item.why_match = "" then "Подобрано по вашему запросу" else item.why_match }

/-- The `manager_offer` object of an assistant response. -/
structure AssistantManagerOffer where
  recommended : Bool
  message : String := ""
  call_to_action : String := ""
deriving DecidableEq

/-- A parsed 2xx assistant response body (`type AssistantResponse`;
optional JSON fields modelled as options). -/
structure AssistantPayload where
  ok : Bool
  request_id : Option String := Option.none
  answer_text : String := ""
  sources : List String := []
  recommended_products : List AssistantRecommendedItem := []
  manager_offer : Option AssistantManagerOffer := Option.none
  match_quality : Option MatchQuality := Option.none
  processing_note : Option String := Option.none
deriving DecidableEq

/-- Resolution of one assistant-ask HTTP exchange: a transport/parse
throw, a non-2xx response (already run through `readAssistantApiError`),
or a parsed 2xx body plus the `X-Request-ID` header. -/
inductive AskOutcome
  | thrown
  | httpError (err : AssistantApiError)
  | ok (headerRequestId : Option String) (payload : AssistantPayload)
deriving DecidableEq

/-- The catch branch of `askAssistantQuestion`: set `state.error` and
append the apologetic assistant transcript entry (request id appended
when truthy). -/
def applyAskFailure (apiError : AssistantApiError) (s : AppState) : AppState :=
  match truthyStr apiError.requestId with
  | some rid =>
    { s with
        error := some (apiError.userMessage ++ " Код запроса: " ++ rid)
        chatMessages := s.chatMessages ++
          [{ role := ChatRole.assistant
             text := "Я на связи, но сейчас не удалось завершить обработку. Попробуйте повторить вопрос. Код запроса: " ++ rid ++ "." }] }
  | Option.none =>
    { s with
        error := some apiError.userMessage
        chatMessages := s.chatMessages ++
          [{ role := ChatRole.assistant
             text := "Я на связи, просто сейчас не удалось завершить обработку запроса. Попробуйте повторить вопрос." }] }

/-- The assistant transcript entry appended on a successful response:
answer text, source list, and the processing note with the correlation id
(`payload.request_id`, else the trimmed header) appended when present. -/
def assistantSuccessMessage (headerRequestId : Option String)
    (payload : AssistantPayload) : ChatMessage :=
  let responseRequestId :=
    match truthyStr payload.request_id with
    | some r => r
    | Option.none => jsTrim (headerRequestId.getD "")
  let metaText := payload.processing_note.getD ""
  let metaWithRequestId :=
    if responseRequestId ≠ "" then metaText ++ " Код запроса: " ++ responseRequestId
    else metaText
  { role := ChatRole.assistant
    text := payload.answer_text
    sources := some payload.sources
    meta := if metaWithRequestId = "" then Option.none else some metaWithRequestId }

/-- The body of `askAssistantQuestion` once the guard has passed, for a
trimmed non-blank `question`: optimistic user append, then the
success / failure reconciliation, then the finally block (progress
reset, busy flag cleared). -/
def askAssistantCompleted (question : String) (outcome : AskOutcome) (s : AppState) : AppState :=
  let s1 : AppState :=
    { s with
        error := Option.none
        chatMessages := s.chatMessages ++ [{ role := ChatRole.user, text := question }]
        chatInput := ""
        chatLoading := true
        chatElapsedSec := 0
        chatProgressText := CHAT_PROGRESS_STEPS.headD ""
        view := AppView.chat }
  let s2 : AppState :=
    match outcome with
    | AskOutcome.thrown =>
      applyAskFailure { userMessage := ASSISTANT_FALLBACK_MESSAGE, requestId := Option.none } s1
    | AskOutcome.httpError err => applyAskFailure err s1
    | AskOutcome.ok headerRequestId payload =>
      if payload.ok then
        let s2a : AppState :=
          { s1 with
              chatMessages := s1.chatMessages ++
                [assistantSuccessMessage headerRequestId payload] }
        let s2b : AppState :=
          if payload.recommended_products ≠ [] then
            { s2a with results := payload.recommended_products.map toCatalogItem }
          else s2a
        match payload.manager_offer with
        | some offer =>
          { s2b with
              lastManagerOffer := some
                { recommended := offer.recommended
                  message := offer.message
                  callToAction := offer.call_to_action }
              matchQuality :=
                match payload.match_quality with
                | some q => q
                | Option.none => s2b.matchQuality
              managerRecommended := offer.recommended
              managerMessage := if offer.message = "" then s2b.managerMessage else offer.message
              managerCallToAction :=
                if offer.call_to_action = "" then s2b.managerCallToAction
                else offer.call_to_action }
        | Option.none => s2b
      else
        applyAskFailure
          { userMessage := "Сервис ответа вернул некорректный результат. Попробуйте еще раз через несколько секунд."
            requestId := truthyStr payload.request_id } s1
  { s2 with
      chatLoading := false
      chatElapsedSec := 0
      chatProgressText := CHAT_PROGRESS_STEPS.headD "" }

/-- The question text `(questionOverride || state.chatInput).trim()`. -/
def askQuestionText (questionOverride : Option String) (s : AppState) : String :=
  jsTrim (match questionOverride with
          | some q => if q = "" then s.chatInput else q
          | Option.none => s.chatInput)

/-- `askAssistantQuestion(questionOverride?)` as a whole, parameterized by
the resolved network outcome: the guard rejects a blank question or an
in-flight ask with no state change at all. -/
def askAssistantQuestion (questionOverride : Option String) (outcome : AskOutcome)
    (s : AppState) : AppState :=
  let question := askQuestionText questionOverride s
  if question = "" ∨ s.chatLoading then s
  else askAssistantCompleted question outcome s

/-- A sequence of completed assistant asks: each list entry is the
submitted question override plus the resolved outcome of its request. -/
def runAsks (asks : List (String × AskOutcome)) (s : AppState) : AppState :=
  asks.foldl (fun st p => askAssistantQuestion (some p.1) p.2 st) s

/-! ## Example fixtures used by witnesses and counterexamples -/

/-- A chat-view state holding one result. -/
def chatStateWithResults : AppState :=
  { baseState with
      view := AppView.chat
      results := [{ id := "c1", title := "Курс математики", url := "https://t.me/x" }] }

/-- A state with an assistant ask in flight. -/
def busyChatState : AppState :=
  { baseState with chatLoading := true, chatInput := "вопрос" }

/-- The non-2xx body `{"user_message":"A","detail":"B"}`. -/
def bodyUserMessageAndDetail : AssistantErrorBody :=
  { user_message := some "A", detail := ErrDetail.str "B" }

/-- Note attached to the catalog payload by `sendCatalogSelectionToChat`. -/
def CATALOG_NOTE : String := "Пользователь отправил подбор из miniapp."

/-- A result whose title is 1400 ellipsis characters (three UTF-8 bytes
each): its serialization stays far under 4096 code units but exceeds 4096
UTF-8 bytes. -/
def oversizedBytesItem : CatalogItem :=
  { id := "p1"
    title := String.mk (List.replicate 1400 (Char.ofNat 8230))
    url := "https://example.com/p1" }

/-- The criteria of the §8 handoff scenario. -/
def handoffScenarioState : AppState :=
  { baseState with
      criteria :=
        { brand := "kmipt", grade := some 9, goal := some "oge"
          subject := some "physics", format := some "hybrid" } }

/-! ## C3 — goBack predecessor map -/

/-- C3: `goBack()` maps the current view by the fixed predecessor rule —
from chat to results iff results is non-empty else picker, from results to
picker, from picker to home, from home to home — and clears the error in
every case. -/
theorem goBack_follows_predecessor_map (s : AppState) :
    (goBack s).error = Option.none
    ∧ (s.view = AppView.chat →
        (goBack s).view = if s.results.length > 0 then AppView.results else AppView.picker)
    ∧ (s.view = AppView.results → (goBack s).view = AppView.picker)
    ∧ (s.view = AppView.picker → (goBack s).view = AppView.home)
    ∧ (s.view = AppView.home → (goBack s).view = AppView.home) := by
  refine ⟨rfl, ?_, ?_, ?_, ?_⟩ <;> intro h <;> simp [goBack, h]

/-- Witness: from the chat view with one stored result, `goBack` lands on
the results view with the error cleared. -/
theorem goBack_follows_predecessor_map_witness :
    (goBack chatStateWithResults).view = AppView.results
    ∧ (goBack chatStateWithResults).error = Option.none := by
  have h := goBack_follows_predecessor_map chatStateWithResults
  refine ⟨?_, h.1⟩
  rw [h.2.1 rfl]
  decide

/-! ## C9 — boot value of the onboarding step -/

/-- C9 counterexample: when the storage read throws, the app boots with
`coachmarkStep = -1` (dismissed), not 0 as the claim states. -/
theorem initialCoachmarkStep_failure_counterexample :
    initialCoachmarkStep StorageRead.failed = -1
    ∧ initialCoachmarkStep StorageRead.failed ≠ 0 := by decide

/-- C9 (amended): an absent flag (or any stored value other than "1")
boots with step 0, while a thrown storage read — like a stored "1" — boots
dismissed with step -1. -/
theorem initialCoachmarkStep_boot (v : String) (hv : v ≠ "1") :
    initialCoachmarkStep (StorageRead.ok Option.none) = 0
    ∧ initialCoachmarkStep StorageRead.failed = -1
    ∧ initialCoachmarkStep (StorageRead.ok (some "1")) = -1
    ∧ initialCoachmarkStep (StorageRead.ok (some v)) = 0 := by
  refine ⟨by decide, by decide, by decide, ?_⟩
  simp [initialCoachmarkStep, shouldShowCoachmarks, hv]

/-- Witness for the amended C9 at the stored value "0". -/
theorem initialCoachmarkStep_boot_witness :
    initialCoachmarkStep (StorageRead.ok (some "0")) = 0 :=
  (initialCoachmarkStep_boot "0" (by decide)).2.2.2

/-! ## C7 — coachmark step monotonicity -/

/-- C7: every operation on `coachmarkStep` in a reachable state
(step ≤ 2) leaves it unchanged, increases it (0→1 on grade, 1→2 on goal,
+1 on the explicit "next" advance), or sets it to -1 on dismissal; it
never decreases while still ≥ 0, and every operation keeps step ≤ 2. -/
theorem coachmarkStep_monotone (c : SearchCriteria) (step : Int) (h2 : step ≤ 2) :
    (step = updateCoachmarkProgress c step ∨ step < updateCoachmarkProgress c step)
    ∧ (coachmarkNextClick step = -1 ∨ step < coachmarkNextClick step)
    ∧ markCoachmarksComplete step = -1
    ∧ catalogCoachmarkClamp step = step
    ∧ updateCoachmarkProgress c step ≤ 2
    ∧ coachmarkNextClick step ≤ 2
    ∧ (step = 0 → numTruthy c.grade = true → strTruthy c.goal = false →
        updateCoachmarkProgress c step = 1)
    ∧ (step = 1 → strTruthy c.goal = true → updateCoachmarkProgress c step = 2)
    ∧ (2 ≤ step → coachmarkNextClick step = -1)
    ∧ (0 ≤ step → step < 2 → coachmarkNextClick step = step + 1) := by
  refine ⟨?_, ?_, rfl, ?_, ?_, ?_, ?_, ?_, ?_, ?_⟩ <;>
    simp only [updateCoachmarkProgress, coachmarkNextClick, catalogCoachmarkClamp] <;>
    intros <;> split_ifs <;> simp_all <;> omega

/-- Witness: at step 0 with a grade picked and no goal yet, progression
advances to exactly step 1. -/
theorem coachmarkStep_monotone_witness :
    updateCoachmarkProgress { brand := "kmipt", grade := some 9 } 0 = 1 := by
  have h := coachmarkStep_monotone { brand := "kmipt", grade := some 9 } 0 (by decide)
  exact h.2.2.2.2.2.2.1 rfl (by decide) (by decide)

/-! ## C2 — assistant error-message fallback chain -/

/-- C2 counterexample: on HTTP 422 with body
`{"user_message":"A","detail":"B"}` the code yields the string detail "B",
while the claimed preference order (top-level `user_message` first) would
yield "A" — the trusted string detail overrides `user_message`, not the
other way around. -/
theorem readAssistantApiError_order_counterexample :
    (readAssistantApiError 422 Option.none (some bodyUserMessageAndDetail)).userMessage = "B"
    ∧ specAssistantErrorMessage 422 (some bodyUserMessageAndDetail) = "A"
    ∧ (readAssistantApiError 422 Option.none (some bodyUserMessageAndDetail)).userMessage
        ≠ specAssistantErrorMessage 422 (some bodyUserMessageAndDetail) := by decide

/-- C2 (amended): the probes run in sequence with later ones overriding —
the generic fallback, then a non-blank top-level `user_message`, then a
non-blank string `detail` when the status is below 500 (so trusted detail
takes precedence over `user_message`), and for an object detail its
`user_message` (else its `message` when status < 500); a 500 response
with string detail "internal" keeps the generic fallback while a 422
response with string detail yields that detail verbatim; the correlation
id comes from the X-Request-ID header, else from the body. -/
theorem readAssistantApiError_fallback_chain :
    ((readAssistantApiError 500 Option.none
        (some { detail := ErrDetail.str "internal" })).userMessage
      = ASSISTANT_FALLBACK_MESSAGE)
    ∧ ((readAssistantApiError 422 Option.none
        (some { detail := ErrDetail.str "question too long" })).userMessage
      = "question too long")
    ∧ (∀ (status : Nat) (hdr um rid : Option String) (d : String),
        jsTrim d ≠ "" → status < 500 →
        (readAssistantApiError status hdr
          (some { user_message := um, request_id := rid, detail := ErrDetail.str d })).userMessage
          = jsTrim d)
    ∧ (∀ (status : Nat) (hdr rid : Option String) (d : String),
        500 ≤ status →
        (readAssistantApiError status hdr
          (some { request_id := rid, detail := ErrDetail.str d })).userMessage
          = ASSISTANT_FALLBACK_MESSAGE)
    ∧ (∀ (status : Nat) (hdr : Option String),
        (readAssistantApiError status hdr Option.none).userMessage = ASSISTANT_FALLBACK_MESSAGE)
    ∧ (∀ (status : Nat) (hdr rid : Option String) (u : String),
        jsTrim u ≠ "" →
        (readAssistantApiError status hdr
          (some { user_message := some u, request_id := rid })).userMessage = jsTrim u)
    ∧ (∀ (status : Nat) (hdr um : Option String) (u : String),
        jsTrim u ≠ "" →
        (readAssistantApiError status hdr
          (some { user_message := um
                  detail := ErrDetail.obj (some u) Option.none Option.none })).userMessage
          = jsTrim u)
    ∧ (∀ (status : Nat) (h : String) (b : AssistantErrorBody),
        jsTrim h ≠ "" →
        (readAssistantApiError status (some h) (some b)).requestId = some (jsTrim h))
    ∧ (∀ (status : Nat) (r : String),
        jsTrim r ≠ "" →
        (readAssistantApiError status Option.none
          (some { request_id := some r })).requestId = some (jsTrim r)) := by
  refine ⟨by decide, by decide, ?_, ?_, ?_, ?_, ?_, ?_, ?_⟩
  · intro status hdr um rid d hd hs
    simp [readAssistantApiError, hd, hs]
  · intro status hdr rid d hs
    have : ¬ (jsTrim d ≠ "" ∧ status < 500) := by omega
    simp [readAssistantApiError, this]
  · intro status hdr
    simp [readAssistantApiError]
  · intro status hdr rid u hu
    simp [readAssistantApiError, hu]
  · intro status hdr um u hu
    simp [readAssistantApiError, hu]
  · intro status h b hh
    cases b with
    | mk um rid detail =>
      cases detail <;>
        simp [readAssistantApiError, optTrimToSome, hh]
  · intro status r hr
    have hempty : jsTrim "" = "" := rfl
    simp [readAssistantApiError, optTrimToSome, hr, hempty]

/-- Witness for the amended C2: a 404 response with string detail "lost"
yields exactly "lost". -/
theorem readAssistantApiError_fallback_chain_witness :
    (readAssistantApiError 404 Option.none
      (some { user_message := Option.none, request_id := Option.none
              detail := ErrDetail.str "lost" })).userMessage = jsTrim "lost" :=
  readAssistantApiError_fallback_chain.2.2.1 404 Option.none Option.none Option.none "lost"
    (by decide) (by decide)

/-! ## C4 — payload size gate of buildMiniAppPayload -/

/-- The size gate passes a serialization that is short enough. -/
theorem buildMiniAppPayload_eq_of_lt (flow : MiniAppFlow) (criteria : SearchCriteria)
    (results : List CatalogItem) (note : Option String)
    (h : (serializeMiniAppPayload flow criteria results note).length < 4096) :
    buildMiniAppPayload flow criteria results note
      = some (serializeMiniAppPayload flow criteria results note) := by
  unfold buildMiniAppPayload
  exact if_neg (by omega)

set_option maxRecDepth 7500 in
/-- C4 counterexample: a serialization of more than 4096 UTF-8 bytes
whose JS string length stays below 4096 is returned in full, not
rejected — the gate counts string code units, not bytes. -/
theorem buildMiniAppPayload_bytes_counterexample :
    buildMiniAppPayload MiniAppFlow.catalog baseState.criteria [oversizedBytesItem]
        (some CATALOG_NOTE)
      = some (serializeMiniAppPayload MiniAppFlow.catalog baseState.criteria
          [oversizedBytesItem] (some CATALOG_NOTE))
    ∧ 4096 ≤ utf8ByteLength (serializeMiniAppPayload MiniAppFlow.catalog baseState.criteria
        [oversizedBytesItem] (some CATALOG_NOTE)) :=
  ⟨buildMiniAppPayload_eq_of_lt MiniAppFlow.catalog baseState.criteria [oversizedBytesItem]
      (some CATALOG_NOTE) (by decide),
   by decide⟩

/-- C4 (amended): the fail-closed threshold is 4096 UTF-16 code units of
the serialized string (JS `serialized.length`), not bytes: at or above
that length no payload is returned, and below it the untruncated full
serialization — flow, criteria, and the first three results reduced to
id/title/url — is returned. -/
theorem buildMiniAppPayload_length_gate (flow : MiniAppFlow) (criteria : SearchCriteria)
    (results : List CatalogItem) (note : Option String) :
    (buildMiniAppPayload flow criteria results note = Option.none ↔
      4096 ≤ (serializeMiniAppPayload flow criteria results note).length)
    ∧ (∀ p, buildMiniAppPayload flow criteria results note = some p →
        p = serializeMiniAppPayload flow criteria results note ∧ p.length < 4096) := by
  simp only [buildMiniAppPayload]
  split_ifs with h
  · refine ⟨⟨fun _ => h, fun _ => rfl⟩, ?_⟩
    intro p hp
    exact absurd hp (by simp)
  · refine ⟨⟨fun hnone => absurd hnone (by simp), fun hge => absurd hge h⟩, ?_⟩
    intro p hp
    cases hp
    exact ⟨rfl, by omega⟩

/-- Witness: the empty-criteria payload is below the gate and returned in
full. -/
theorem buildMiniAppPayload_length_gate_witness :
    (serializeMiniAppPayload MiniAppFlow.catalog { brand := "kmipt" } [] Option.none
        = serializeMiniAppPayload MiniAppFlow.catalog { brand := "kmipt" } [] Option.none)
    ∧ (serializeMiniAppPayload MiniAppFlow.catalog { brand := "kmipt" } [] Option.none).length
        < 4096 :=
  (buildMiniAppPayload_length_gate MiniAppFlow.catalog { brand := "kmipt" } [] Option.none).2
    (serializeMiniAppPayload MiniAppFlow.catalog { brand := "kmipt" } [] Option.none)
    (by decide)

/-! ## C8 — bounded manager context summary -/

/-- Dropping a prefix cannot lengthen a list. -/
theorem dropWhile_length_le {α : Type} (p : α → Bool) :
    ∀ l : List α, (l.dropWhile p).length ≤ l.length
  | [] => le_refl _
  | a :: l => by
    rw [List.dropWhile_cons]
    split_ifs
    · exact le_trans (dropWhile_length_le p l) (Nat.le_succ _)
    · exact le_refl _

/-- The trimmed hard cut stays within 899 characters. -/
theorem jsTrimEnd_take_length_le (l : List Char) :
    (jsTrimEnd ⟨l.take (MAX_MANAGER_CONTEXT_LENGTH - 1)⟩).length ≤ 899 := by
  show (((l.take (MAX_MANAGER_CONTEXT_LENGTH - 1)).reverse.dropWhile isJsWs).reverse).length ≤ 899
  rw [List.length_reverse]
  calc ((l.take (MAX_MANAGER_CONTEXT_LENGTH - 1)).reverse.dropWhile isJsWs).length
      ≤ (l.take (MAX_MANAGER_CONTEXT_LENGTH - 1)).reverse.length :=
        dropWhile_length_le isJsWs _
    _ = (l.take (MAX_MANAGER_CONTEXT_LENGTH - 1)).length := List.length_reverse _
    _ ≤ MAX_MANAGER_CONTEXT_LENGTH - 1 := by
        rw [List.length_take]; exact Nat.min_le_left _ _
    _ ≤ 899 := by simp [MAX_MANAGER_CONTEXT_LENGTH]

/-- Hard cut plus ellipsis keeps `trimForManager` within 900 characters. -/
theorem trimForManager_length_le (t : String) :
    (trimForManager t).length ≤ 900 := by
  simp only [trimForManager]
  split_ifs with h
  · simpa [MAX_MANAGER_CONTEXT_LENGTH] using h
  · rw [String.length_append]
    have h1 := jsTrimEnd_take_length_le (jsTrim ⟨collapseWsNlList t.data⟩).data
    have h2 : ("…" : String).length = 1 := rfl
    omega

/-- Overflowing summaries end in the ellipsis marker after a hard cut. -/
theorem trimForManager_overflow_shape (t : String)
    (h : 900 < (jsTrim ⟨collapseWsNlList t.data⟩).length) :
    ∃ p : String, trimForManager t = p ++ "…" ∧ p.length ≤ 899 := by
  simp only [trimForManager]
  rw [if_neg (by simpa [MAX_MANAGER_CONTEXT_LENGTH] using Nat.not_le.mpr h)]
  exact ⟨_, rfl, jsTrimEnd_take_length_le _⟩

set_option maxRecDepth 4000 in
/-- C8: every manager-context summary is at most 900 characters, overflow
is a hard character cut terminated by the ellipsis marker, and the §8
scenario (grade 9, goal "oge", subject "physics", format "hybrid", empty
chat history) contains the mapped grade label "9 кл.", the mapped goal
label "ОГЭ", and the no-prior-question filler text. -/
theorem managerContextSummary_bounded :
    (∀ s : AppState, (buildManagerContextSummary s).length ≤ 900)
    ∧ (∀ t : String, 900 < (jsTrim ⟨collapseWsNlList t.data⟩).length →
        ∃ p : String, trimForManager t = p ++ "…" ∧ p.length ≤ 899)
    ∧ strContainsSub (buildManagerContextSummary handoffScenarioState) "9 кл." = true
    ∧ strContainsSub (buildManagerContextSummary handoffScenarioState) "ОГЭ" = true
    ∧ strContainsSub (buildManagerContextSummary handoffScenarioState)
        "в Mini App еще не было свободного вопроса" = true
    ∧ (buildManagerContextSummary handoffScenarioState).length ≤ 900 := by
  refine ⟨?_, trimForManager_overflow_shape, by decide, by decide, by decide, by decide⟩
  intro s
  unfold buildManagerContextSummary
  exact trimForManager_length_le _

set_option maxRecDepth 7500 in
/-- Witness: a long all-letter input is cut and ends with the ellipsis. -/
theorem managerContextSummary_bounded_witness :
    ∃ p : String, trimForManager (String.mk (List.replicate 1000 'a')) = p ++ "…"
      ∧ p.length ≤ 899 :=
  managerContextSummary_bounded.2.1 (String.mk (List.replicate 1000 'a')) (by decide)

/-! ## C10 — success confirmation is written into state.error -/

/-- C10: after a successful `sendData` submission (and a non-throwing
optional close), `sendPayloadToChat` writes the success confirmation text
into `state.error` — the same field that carries failure messages, as the
capability-absent branch shows — so a non-null `state.error` does not
imply that an operation failed. -/
theorem sendPayloadToChat_success_confirmation (host : HostCaps)
    (payload successText : String) (s : AppState)
    (hsend : host.sendData = some true) (hclose : host.close ≠ some false) :
    (sendPayloadToChat host payload successText s).1.error = some successText
    ∧ HostAction.sentData payload ∈ (sendPayloadToChat host payload successText s).2
    ∧ (∀ host2 : HostCaps, host2.sendData = Option.none →
        (sendPayloadToChat host2 payload successText s).1.error
          = some "Отправка в чат доступна только внутри Telegram Mini App.") := by
  refine ⟨?_, ?_, ?_⟩
  · unfold sendPayloadToChat
    rw [hsend]
    cases hc : host.close with
    | none => rfl
    | some b => cases b with
      | false => exact absurd hc hclose
      | true => rfl
  · unfold sendPayloadToChat
    rw [hsend]
    cases hc : host.close with
    | none => simp
    | some b => cases b with
      | false => exact absurd hc hclose
      | true => simp
  · intro host2 h2
    unfold sendPayloadToChat
    rw [h2]

/-- Witness: inside a host with `sendData` and no `close`, submitting a
payload stores the confirmation text in the error field. -/
theorem sendPayloadToChat_success_confirmation_witness :
    (sendPayloadToChat { sendData := some true } "payload" "Готово" baseState).1.error
      = some "Готово" :=
  (sendPayloadToChat_success_confirmation { sendData := some true } "payload" "Готово"
    baseState rfl (by decide)).1

/-! ## C6 — re-entrancy and blank-question guard -/

/-- C6: calling `askAssistantQuestion` while an ask is in flight, or with
a question that trims to blank, returns the state completely unchanged
regardless of what any request would have produced — nothing is queued,
cancelled, or mutated. -/
theorem askAssistantQuestion_guard_noop (questionOverride : Option String)
    (outcome : AskOutcome) (s : AppState)
    (h : s.chatLoading = true ∨ askQuestionText questionOverride s = "") :
    askAssistantQuestion questionOverride outcome s = s := by
  unfold askAssistantQuestion
  rcases h with h | h
  · rw [if_pos (Or.inr (by simp [h]))]
  · rw [if_pos (Or.inl h)]

/-- Witness: with an ask in flight, a second submission is a no-op. -/
theorem askAssistantQuestion_guard_noop_witness :
    askAssistantQuestion (some "второй вопрос") AskOutcome.thrown busyChatState
      = busyChatState :=
  askAssistantQuestion_guard_noop (some "второй вопрос") AskOutcome.thrown busyChatState
    (Or.inl rfl)

/-! ## C1 — two transcript entries per completed ask -/

/-- The failure branch appends exactly one assistant entry. -/
theorem applyAskFailure_transcript (e : AssistantApiError) (s : AppState) :
    ∃ m : ChatMessage, m.role = ChatRole.assistant
      ∧ (applyAskFailure e s).chatMessages = s.chatMessages ++ [m]
      ∧ (applyAskFailure e s).chatLoading = s.chatLoading := by
  unfold applyAskFailure
  cases truthyStr e.requestId with
  | none => exact ⟨_, rfl, rfl, rfl⟩
  | some rid => exact ⟨_, rfl, rfl, rfl⟩

/-- One completed ask appends the optimistic user entry and exactly one
assistant entry, and clears the busy flag. -/
theorem askAssistantCompleted_transcript (question : String) (outcome : AskOutcome)
    (s : AppState) :
    (∃ m : ChatMessage, m.role = ChatRole.assistant
      ∧ (askAssistantCompleted question outcome s).chatMessages
          = s.chatMessages ++ [{ role := ChatRole.user, text := question }, m])
    ∧ (askAssistantCompleted question outcome s).chatLoading = false := by
  refine ⟨?_, rfl⟩
  unfold askAssistantCompleted
  cases outcome with
  | thrown =>
    obtain ⟨m, hm, he, -⟩ := applyAskFailure_transcript
      { userMessage := ASSISTANT_FALLBACK_MESSAGE, requestId := Option.none }
      { s with
          error := Option.none
          chatMessages := s.chatMessages ++ [{ role := ChatRole.user, text := question }]
          chatInput := ""
          chatLoading := true
          chatElapsedSec := 0
          chatProgressText := CHAT_PROGRESS_STEPS.headD ""
          view := AppView.chat }
    exact ⟨m, hm, by simpa using he⟩
  | httpError err =>
    obtain ⟨m, hm, he, -⟩ := applyAskFailure_transcript err
      { s with
          error := Option.none
          chatMessages := s.chatMessages ++ [{ role := ChatRole.user, text := question }]
          chatInput := ""
          chatLoading := true
          chatElapsedSec := 0
          chatProgressText := CHAT_PROGRESS_STEPS.headD ""
          view := AppView.chat }
    exact ⟨m, hm, by simpa using he⟩
  | ok headerRequestId payload =>
    by_cases hok : payload.ok
    · simp only [hok, if_true]
      by_cases hrec : payload.recommended_products ≠ []
      · cases payload.manager_offer <;>
          exact ⟨assistantSuccessMessage headerRequestId payload, rfl, by simp [hrec]⟩
      · cases payload.manager_offer <;>
          exact ⟨assistantSuccessMessage headerRequestId payload, rfl, by simp [hrec]⟩
    · simp only [hok, if_false]
      obtain ⟨m, hm, he, -⟩ := applyAskFailure_transcript
        { userMessage := "Сервис ответа вернул некорректный результат. Попробуйте еще раз через несколько секунд."
          requestId := truthyStr payload.request_id }
        { s with
            error := Option.none
            chatMessages := s.chatMessages ++ [{ role := ChatRole.user, text := question }]
            chatInput := ""
            chatLoading := true
            chatElapsedSec := 0
            chatProgressText := CHAT_PROGRESS_STEPS.headD ""
            view := AppView.chat }
      exact ⟨m, hm, by simpa using he⟩

/-- A trimmed-non-blank question against a non-busy state passes the
guard and runs the completed ask. -/
theorem askAssistantQuestion_of_ready (q : String) (outcome : AskOutcome) (s : AppState)
    (hq : jsTrim q ≠ "") (hl : s.chatLoading = false) :
    askAssistantQuestion (some q) outcome s = askAssistantCompleted (jsTrim q) outcome s := by
  have hqne : q ≠ "" := by
    intro h
    exact hq (by rw [h]; rfl)
  unfold askAssistantQuestion askQuestionText
  rw [if_neg]
  · simp [hqne]
  · simp [hqne, hq, hl]

/-- C1: starting from any non-busy state, a sequence of N completed asks
(any mix of success and failure outcomes, each question non-blank after
trimming) grows `chatMessages` by exactly 2N — per completed ask exactly
one user entry at submission and one assistant entry at completion. -/
theorem chatMessages_two_per_completed_ask :
    (∀ (asks : List (String × AskOutcome)) (s : AppState),
      (∀ p ∈ asks, jsTrim p.1 ≠ "") → s.chatLoading = false →
      (runAsks asks s).chatMessages.length = s.chatMessages.length + 2 * asks.length
        ∧ (runAsks asks s).chatLoading = false)
    ∧ (∀ (q : String) (outcome : AskOutcome) (s : AppState),
      jsTrim q ≠ "" → s.chatLoading = false →
      ∃ m : ChatMessage, m.role = ChatRole.assistant
        ∧ (askAssistantQuestion (some q) outcome s).chatMessages
            = s.chatMessages ++ [{ role := ChatRole.user, text := jsTrim q }, m]) := by
  constructor
  · intro asks
    induction asks with
    | nil =>
      intro s _ hl
      exact ⟨by simp [runAsks], by simpa [runAsks] using hl⟩
    | cons p rest ih =>
      intro s hq hl
      have hstep := askAssistantQuestion_of_ready p.1 p.2 s (hq p (by simp)) hl
      have htr := askAssistantCompleted_transcript (jsTrim p.1) p.2 s
      obtain ⟨⟨m, _, hmsg⟩, hload⟩ := htr
      have hrun : runAsks (p :: rest) s
          = runAsks rest (askAssistantQuestion (some p.1) p.2 s) := rfl
      have hrest := ih (askAssistantQuestion (some p.1) p.2 s)
        (fun x hx => hq x (by simp [hx])) (by rw [hstep]; exact hload)
      rw [hrun]
      refine ⟨?_, hrest.2⟩
      rw [hrest.1, hstep, hmsg]
      simp
      ring
  · intro q outcome s hq hl
    rw [askAssistantQuestion_of_ready q outcome s hq hl]
    exact (askAssistantCompleted_transcript (jsTrim q) outcome s).1

/-- Witness: one failed ask and one successful ask from the boot state
leave exactly four transcript entries. -/
theorem chatMessages_two_per_completed_ask_witness :
    (runAsks [("Куда поступать?", AskOutcome.thrown),
              ("Что сдавать?", AskOutcome.ok Option.none { ok := true })] baseState).chatMessages.length
      = baseState.chatMessages.length + 2 * 2 ∧
    (runAsks [("Куда поступать?", AskOutcome.thrown),
              ("Что сдавать?", AskOutcome.ok Option.none { ok := true })] baseState).chatLoading = false :=
  chatMessages_two_per_completed_ask.1
    [("Куда поступать?", AskOutcome.thrown), ("Что сдавать?", AskOutcome.ok Option.none { ok := true })]
    baseState (by decide) rfl

/-! ## C5 — escalation preference order of openManagerChat -/

/-- Opening an external link never submits structured data. -/
theorem openExternalLink_no_sentData (host : HostCaps) (url : String) (p : String) :
    HostAction.sentData p ∉ (openExternalLink host url).2 := by
  rcases host with ⟨otl, ol, wo, sd, cl⟩
  rcases otl with _ | b1 <;> rcases ol with _ | b2 <;> cases wo <;>
    (try cases b1) <;> (try cases b2) <;>
    simp only [openExternalLink, windowOpenFallback] <;>
    split_ifs <;> simp

/-- When the payload fails closed or the host cannot submit, the
structured flow sends nothing. -/
theorem sendConsultationRequest_no_sentData (host : HostCaps) (s : AppState)
    (h : buildMiniAppPayload MiniAppFlow.consultation_request s.criteria s.results
          (some CONSULTATION_NOTE) = Option.none
        ∨ host.sendData ≠ some true) (p : String) :
    HostAction.sentData p ∉ (sendConsultationRequestToChat host s).2 := by
  unfold sendConsultationRequestToChat
  cases hb : buildMiniAppPayload MiniAppFlow.consultation_request s.criteria s.results
      (some CONSULTATION_NOTE) with
  | none => simp
  | some payload =>
    unfold sendPayloadToChat
    rcases h with h | h
    · rw [hb] at h
      exact absurd h (by simp)
    · cases hsd : host.sendData with
      | none => simp
      | some b =>
        cases b
        · simp
        · exact absurd hsd h

/-- String append acts as list append on the character data. -/
theorem strData_append (x y : String) : (x ++ y).data = x.data ++ y.data := rfl

/-- Unreserved URI characters are never whitespace. -/
theorem not_ws_of_unreserved (c : Char) (h : isUriUnreserved c = true) :
    isJsWs c = false := by
  rw [Bool.eq_false_iff]
  intro hw
  unfold isUriUnreserved at h
  unfold isJsWs at hw
  simp only [Nat.ble_eq, Bool.or_eq_true, Bool.and_eq_true, beq_iff_eq] at h hw
  omega

/-- Hex digits are never whitespace. -/
theorem hexDigitUpper_not_ws (n : Nat) (h : n < 16) : isJsWs (hexDigitUpper n) = false := by
  interval_cases n <;> decide

/-- Percent-encoded bytes contain no whitespace. -/
theorem percentByte_not_ws (n : Nat) (c : Char) (hc : c ∈ (percentByte n).data) :
    isJsWs c = false := by
  have hd : (percentByte n).data = ['%', hexDigitUpper (n / 16 % 16), hexDigitUpper (n % 16)] := rfl
  rw [hd] at hc
  simp only [List.mem_cons, List.not_mem_nil, or_false] at hc
  rcases hc with hc | hc | hc <;> subst hc
  · decide
  · exact hexDigitUpper_not_ws _ (Nat.mod_lt _ (by omega))
  · exact hexDigitUpper_not_ws _ (Nat.mod_lt _ (by omega))

/-- Folding string append flattens the character data. -/
theorem data_foldl_append (l : List String) (acc : String) :
    (l.foldl (fun r s => r ++ s) acc).data = acc.data ++ (l.map String.data).flatten := by
  induction l generalizing acc with
  | nil => simp
  | cons a l ih =>
    simp only [List.foldl_cons, List.map_cons, List.flatten_cons, ih]
    simp [strData_append, List.append_assoc]

/-- Character data of a joined string list. -/
theorem data_join (l : List String) : (String.join l).data = (l.map String.data).flatten := by
  show (l.foldl (fun r s => r ++ s) "").data = _
  rw [data_foldl_append]
  rfl

/-- Encoded URI components contain no whitespace at all. -/
theorem encodeURIComponent_not_ws (s : String) (c : Char)
    (hc : c ∈ (encodeURIComponent s).data) : isJsWs c = false := by
  unfold encodeURIComponent at hc
  rw [data_join, List.map_map] at hc
  rcases List.mem_flatten.mp hc with ⟨piece, hpiece, hcp⟩
  rcases List.mem_map.mp hpiece with ⟨ch, hchmem, hch⟩
  subst hch
  simp only [Function.comp_apply] at hcp
  by_cases hu : isUriUnreserved ch = true
  · rw [if_pos hu] at hcp
    have hceq : c = ch := by simpa using hcp
    subst hceq
    exact not_ws_of_unreserved c hu
  · rw [if_neg hu] at hcp
    rw [data_join, List.map_map] at hcp
    rcases List.mem_flatten.mp hcp with ⟨p2, hp2, hcp2⟩
    rcases List.mem_map.mp hp2 with ⟨b, hbmem, hb⟩
    subst hb
    simp only [Function.comp_apply] at hcp2
    exact percentByte_not_ws b c hcp2

/-- Dropping whitespace from a whitespace-free list is the identity. -/
theorem dropWhile_eq_self_of_not (l : List Char) (h : ∀ c ∈ l, isJsWs c = false) :
    l.dropWhile isJsWs = l := by
  cases l with
  | nil => rfl
  | cons a l =>
    rw [List.dropWhile_cons]
    rw [h a (by simp)]
    simp

/-- Trimming a whitespace-free string is the identity. -/
theorem jsTrim_eq_self_of_not_ws (s : String) (h : ∀ c ∈ s.data, isJsWs c = false) :
    jsTrim s = s := by
  unfold jsTrim jsTrimList
  rw [dropWhile_eq_self_of_not _ h]
  rw [dropWhile_eq_self_of_not _ (fun c hc => h c (List.mem_reverse.mp hc))]
  simp

/-- The default manager username is always used (it is non-blank). -/
theorem resolveManagerUsername_eq (s : AppState) : resolveManagerUsername s = "unpk_mipt" := rfl

/-- Shape of the first escalation deep link. -/
theorem managerLink1_data (s : AppState) :
    (managerLink1 s).data
      = "tg://resolve?domain=".data ++ "unpk_mipt".data ++ "&text=".data
          ++ (encodeURIComponent (buildManagerContextSummary s)).data := by
  unfold managerLink1
  rw [resolveManagerUsername_eq]
  simp only [strData_append]

/-- The deep link contains no whitespace. -/
theorem managerLink1_chars_not_ws (s : AppState) :
    ∀ c ∈ (managerLink1 s).data, isJsWs c = false := by
  have hlit1 : ∀ c ∈ "tg://resolve?domain=".data, isJsWs c = false := by decide
  have hlit2 : ∀ c ∈ "unpk_mipt".data, isJsWs c = false := by decide
  have hlit3 : ∀ c ∈ "&text=".data, isJsWs c = false := by decide
  intro c hc
  rw [managerLink1_data] at hc
  rcases List.mem_append.mp hc with hc | hc
  · rcases List.mem_append.mp hc with hc | hc
    · rcases List.mem_append.mp hc with hc | hc
      · exact hlit1 c hc
      · exact hlit2 c hc
    · exact hlit3 c hc
  · exact encodeURIComponent_not_ws _ c hc

/-- The deep link is never empty. -/
theorem managerLink1_ne_empty (s : AppState) : managerLink1 s ≠ "" := by
  intro h
  have hd := congrArg String.data h
  rw [managerLink1_data] at hd
  simp at hd

/-- The deep link carries the in-host scheme. -/
theorem managerLink1_starts_tg (s : AppState) :
    strStartsWith (managerLink1 s) "tg://" = true := by
  unfold strStartsWith
  rw [managerLink1_data]
  rw [List.take_append_of_le_length (by decide)]
  decide

/-- A host with a working `openTelegramLink` always opens the manager
deep link directly. -/
theorem openExternalLink_tg (host : HostCaps) (s : AppState)
    (h : host.openTelegramLink = some true) :
    openExternalLink host (managerLink1 s)
      = (true, [HostAction.openedTelegramLink (managerLink1 s)]) := by
  have htrim : jsTrim (managerLink1 s) = managerLink1 s :=
    jsTrim_eq_self_of_not_ws _ (managerLink1_chars_not_ws s)
  unfold openExternalLink
  rw [htrim, if_neg (managerLink1_ne_empty s), managerLink1_starts_tg, Bool.or_true, h]
  simp

/-- C5: `openManagerChat` escalates in a fixed preference order — if a
direct external link to the agent opens, nothing else happens (state
untouched, no structured submission); only when both direct links fail
does it run the structured consultation submission and then surface a
message in `state.error`; and when that structured flow also fails
(oversized payload or no working `sendData`), an error is still surfaced
and no data has been sent — there is no further fallback; in particular a
host whose `openTelegramLink` works always takes the direct route. -/
theorem openManagerChat_escalation (host : HostCaps) (s : AppState) :
    ((openExternalLink host (managerLink1 s)).1 = true →
      openManagerChat host s = (s, (openExternalLink host (managerLink1 s)).2))
    ∧ ((openExternalLink host (managerLink1 s)).1 = false →
       (openExternalLink host (managerLink2 s)).1 = true →
      openManagerChat host s
        = (s, (openExternalLink host (managerLink1 s)).2
            ++ (openExternalLink host (managerLink2 s)).2))
    ∧ ((openExternalLink host (managerLink1 s)).1 = false →
       (openExternalLink host (managerLink2 s)).1 = false →
      openManagerChat host s
        = ({ (sendConsultationRequestToChat host s).1 with
              error := some "Не удалось открыть чат менеджера напрямую. Контекст отправлен в бот." },
           (openExternalLink host (managerLink1 s)).2
             ++ (openExternalLink host (managerLink2 s)).2
             ++ (sendConsultationRequestToChat host s).2))
    ∧ (∀ (url p : String), HostAction.sentData p ∉ (openExternalLink host url).2)
    ∧ ((openExternalLink host (managerLink1 s)).1 = false →
       (openExternalLink host (managerLink2 s)).1 = false →
       (buildMiniAppPayload MiniAppFlow.consultation_request s.criteria s.results
           (some CONSULTATION_NOTE) = Option.none
         ∨ host.sendData ≠ some true) →
      (openManagerChat host s).1.error ≠ Option.none
      ∧ ∀ p, HostAction.sentData p ∉ (openManagerChat host s).2)
    ∧ (host.openTelegramLink = some true →
      openManagerChat host s = (s, [HostAction.openedTelegramLink (managerLink1 s)])) := by
  have hfall : (openExternalLink host (managerLink1 s)).1 = false →
      (openExternalLink host (managerLink2 s)).1 = false →
      openManagerChat host s
        = ({ (sendConsultationRequestToChat host s).1 with
              error := some "Не удалось открыть чат менеджера напрямую. Контекст отправлен в бот." },
           (openExternalLink host (managerLink1 s)).2
             ++ (openExternalLink host (managerLink2 s)).2
             ++ (sendConsultationRequestToChat host s).2) := by
    intro h1 h2
    simp [openManagerChat, h1, h2]
  refine ⟨?_, ?_, hfall, fun url p => openExternalLink_no_sentData host url p, ?_, ?_⟩
  · intro h1
    simp [openManagerChat, h1]
  · intro h1 h2
    simp [openManagerChat, h1, h2]
  · intro h1 h2 hsf
    rw [hfall h1 h2]
    refine ⟨by simp, ?_⟩
    intro p
    have n1 := openExternalLink_no_sentData host (managerLink1 s) p
    have n2 := openExternalLink_no_sentData host (managerLink2 s) p
    have n3 := sendConsultationRequest_no_sentData host s hsf p
    simp only [List.mem_append]
    intro hmem
    rcases hmem with (h | h) | h
    exacts [n1 h, n2 h, n3 h]
  · intro h
    have h1 := openExternalLink_tg host s h
    simp [openManagerChat, h1]

/-- Witness: a host exposing `openTelegramLink` opens the first direct
deep link and the state is left untouched. -/
theorem openManagerChat_escalation_witness :
    openManagerChat { openTelegramLink := some true } baseState
      = (baseState, [HostAction.openedTelegramLink (managerLink1 baseState)]) :=
  (openManagerChat_escalation { openTelegramLink := some true } baseState).2.2.2.2.2 rfl
